import Mathlib

/-!
Verification development for the experimaestro-ir pairwise/dual training
subsystem.  Python source files are embedded shallowly: tensors become
functions `Nat → ℚ` (or `Nat → ℝ` where transcendental functions occur)
together with explicit shape arguments, fallible code returns explicit
result types, and effectful hook invocation is recorded as a trace.
-/

namespace Xpmir

/-! ## Floating point scores with NaN / infinity

Relevance scores produced by a ranker may be NaN or ±∞; finite scores are
modelled as rationals. -/

/-- Model of a Python/torch floating point value: NaN, ±infinity, or a
finite value (modelled as a rational). -/
inductive PyFloat where
  | nan : PyFloat
  | inf : PyFloat
  | ninf : PyFloat
  | fin (q : ℚ) : PyFloat
deriving DecidableEq

/-- Embeds `torch.isnan` on one element. -/
def PyFloat.isnan : PyFloat → Bool
  | .nan => true
  | _ => false

/-- Embeds `torch.isinf` on one element (true for both infinities). -/
def PyFloat.isinf : PyFloat → Bool
  | .inf => true
  | .ninf => true
  | _ => false

/-- Finite value of a `PyFloat` (0 for NaN/∞; only used after the
NaN/∞ guard has passed). -/
def PyFloat.val : PyFloat → ℚ
  | .fin q => q
  | _ => 0

/-! ## `xpmir/letor/trainers/pairwise.py` — losses, accuracy, trainer -/

/-- Embeds `PairwiseTrainer.acc` (pairwise.py lines 101-106): with a score
matrix of shape `(n, m)` (as a function on indices, row-major), returns
`(scores[:, :1] > scores[:, 1:]).sum() / (n * (m - 1))`. -/
def PairwiseTrainer.acc (n m : Nat) (scores : Nat → Nat → ℚ) : ℚ :=
  (∑ i ∈ Finset.range n, ∑ j ∈ Finset.range (m - 1),
      if scores i 0 > scores i (j + 1) then (1 : ℚ) else 0) /
    ((n * (m - 1) : Nat) : ℚ)

/-- Embeds `torch.relu`. -/
def relu (x : ℚ) : ℚ := max 0 x

/-- Embeds `HingeLoss` (pairwise.py lines 45-52); the `margin` parameter
defaults to `1.0`. -/
structure HingeLoss where
  margin : ℚ := 1

/-- Embeds `HingeLoss.compute`: `relu(margin - scores[:, :1] + scores[:, 1:]).mean()`
over a score matrix of shape `(n, m)` (n rows; broadcasting column 0
against columns `1..m-1` gives an `n × (m-1)` matrix whose mean is taken). -/
def HingeLoss.compute (l : HingeLoss) (n m : Nat) (scores : Nat → Nat → ℚ) : ℚ :=
  (∑ i ∈ Finset.range n, ∑ j ∈ Finset.range (m - 1),
      relu (l.margin - scores i 0 + scores i (j + 1))) /
    ((n * (m - 1) : Nat) : ℚ)

/-- Embeds `F.softmax(v)` along a length-`m` axis, at position `j`:
`exp(v j) / ∑ k < m, exp(v k)`. -/
noncomputable def softmax (m : Nat) (v : Nat → ℝ) (j : Nat) : ℝ :=
  Real.exp (v j) / ∑ k ∈ Finset.range m, Real.exp (v k)

/-- Embeds `log_softmax(v)` along a length-`m` axis, at position `j`:
`v j - log (∑ k < m, exp (v k))`. -/
noncomputable def logSoftmax (m : Nat) (v : Nat → ℝ) (j : Nat) : ℝ :=
  v j - Real.log (∑ k ∈ Finset.range m, Real.exp (v k))

/-- Embeds `SoftmaxLoss.compute` (pairwise.py lines 39-42):
`torch.mean(1.0 - F.softmax(rel_scores_by_record, dim=1)[:, 0])` on a
score matrix of shape `(n, m)`: the softmax is taken along each row, the
column-0 entries are kept, and the mean is over the `n` rows. -/
noncomputable def SoftmaxLoss.compute (n m : Nat) (scores : Nat → Nat → ℝ) : ℝ :=
  (∑ i ∈ Finset.range n, (1 - softmax m (scores i) 0)) / (n : ℝ)

/-- Embeds `NogueiraCrossEntropyLoss.compute` (pairwise.py lines 29-36) on
a tensor of shape `(n, 2, m)` (`scores i a b`, log-softmax along the last
axis): `log_probs = -rel_scores_by_record.log_softmax(dim=2)`, then
`(log_probs[:, 0, 0] + log_probs[:, 1, 1]).mean()` over the `n` records. -/
noncomputable def NogueiraCrossEntropyLoss.compute (n m : Nat)
    (scores : Nat → Nat → Nat → ℝ) : ℝ :=
  (∑ i ∈ Finset.range n,
      (-(logSoftmax m (scores i 0) 0) + -(logSoftmax m (scores i 1) 1))) / (n : ℝ)

/-- Embeds `pointwise.compute` (pairwise.py lines 55-59):
`log_probs = -rel_scores_by_record.log_softmax(dim=2)`, then
`(log_probs[:, 0, 0] + log_probs[:, 1, 1]).mean()` over the `n` records. -/
noncomputable def pointwise.compute (n m : Nat)
    (scores : Nat → Nat → Nat → ℝ) : ℝ :=
  (∑ i ∈ Finset.range n,
      (-(logSoftmax m (scores i 0) 0) + -(logSoftmax m (scores i 1) 1))) / (n : ℝ)

/-- Embeds `rel_scores.reshape(batch_size, 2)` (row-major): entry `(i, j)`
of the reshaped matrix is element `2*i + j` of the flat score vector. -/
def reshapePairs (rel_scores : List PyFloat) : Nat → Nat → ℚ :=
  fun i j => (rel_scores.getD (2 * i + j) (PyFloat.fin 0)).val

/-- Outcome of one `PairwiseTrainer.train_batch` call: either the process
exits (via `sys.exit`) or a training step happens, reporting the loss and
the accuracy diagnostic. -/
inductive TrainBatchResult where
  | exited (code : Nat) : TrainBatchResult
  | stepped (loss : ℚ) (accMetric : ℚ) : TrainBatchResult
deriving DecidableEq

/-- Embeds `PairwiseTrainer.train_batch` (pairwise.py lines 86-99), applied
to the relevance scores `rel_scores` returned by the ranker on the batch.
The configured loss function `lossfn.compute` is abstracted as `lossfn`
over the reshaped score matrix.  The NaN/∞ guard
(`torch.isnan(rel_scores).any() or torch.isinf(rel_scores).any()`)
precedes the loss computation and calls `sys.exit(1)`. -/
def PairwiseTrainer.train_batch (lossfn : (Nat → Nat → ℚ) → ℚ)
    (batch_size : Nat) (rel_scores : List PyFloat) : TrainBatchResult :=
  if rel_scores.any PyFloat.isnan || rel_scores.any PyFloat.isinf then
    TrainBatchResult.exited 1
  else
    let pairwise_scores := reshapePairs rel_scores
    let loss := lossfn pairwise_scores
    TrainBatchResult.stepped loss (PairwiseTrainer.acc batch_size 2 pairwise_scores)

/-- Embeds one pull of `zip(range(batch_size), it)` inside
`PairwiseTrainer.iter_batches` (pairwise.py lines 79-84): the batch takes
up to `batch_size` records from the front of the iterator, and the
iterator continues from the first untaken record.  (Python `zip` polls
`range(batch_size)` first, so after `batch_size` records the underlying
iterator is not advanced further.) -/
def nextBatch {R : Type} (batch_size : Nat) (it : List R) : List R × List R :=
  (it.take batch_size, it.drop batch_size)

/-- Embeds `PairwiseTrainer.iter_batches` as the stream of yielded batches:
`iter_batches batch_size it k` is the `k`-th batch yielded by the
`while True` generator when the underlying record iterator emits the list
`it`.  The generator never terminates, so the stream is total in `k`; once
the iterator is exhausted every later batch is empty. -/
def PairwiseTrainer.iter_batches {R : Type} (batch_size : Nat) :
    List R → Nat → List R
  | it, 0 => (nextBatch batch_size it).1
  | it, k + 1 => PairwiseTrainer.iter_batches batch_size (nextBatch batch_size it).2 k

/-! ## `src/xpmir/learning/base.py` — `Sampler.initialize` -/

/-- Opaque stand-in for a `np.random.RandomState` instance; the tag lets
distinct instances be distinguished so that "stores exactly that object"
is expressible. -/
structure RandomState where
  tag : Nat
deriving DecidableEq

/-- Outcome of a Python call: a value, or a raised exception (named by its
class). -/
inductive PyResult (α : Type) where
  | ok (a : α) : PyResult α
  | exn (name : String) : PyResult α
deriving DecidableEq

/-- True when the call raised. -/
def PyResult.isExn {α : Type} : PyResult α → Bool
  | .ok _ => false
  | .exn _ => true

/-! ## `xpmir/neural/dual.py` — validation and `score_pairs` hooks -/

/-- Interface view of a `TextEncoder` (defined outside the excerpt): all
the dual-encoder validation code consults is whether `encoder.static()`
holds, i.e. whether the text representation is frozen. -/
structure TextEncoder where
  isStatic : Bool
deriving DecidableEq

/-- Outcome of an experimaestro `__validate__` call: success, or a
validation-time failure (the spec's `ConfigurationError` taxon; in the
source it is a failed `assert`). -/
inductive ValidationResult where
  | ok : ValidationResult
  | configurationError (msg : String) : ValidationResult
deriving DecidableEq

/-- True when validation failed. -/
def ValidationResult.isError : ValidationResult → Bool
  | .ok => false
  | .configurationError _ => true

/-- Embeds `Dense.__validate__` (dual.py lines 58-60):
`assert not self.encoder.static(), "The vocabulary should be learnable"`. -/
def Dense.validate (encoder : TextEncoder) : ValidationResult :=
  if encoder.isStatic then
    ValidationResult.configurationError "The vocabulary should be learnable"
  else
    ValidationResult.ok

/-- Embeds `DotDense.__validate__` (dual.py lines 132-134): first runs
`super().__validate__()` (i.e. `Dense.validate`), then repeats the same
assertion. -/
def DotDense.validate (encoder : TextEncoder) : ValidationResult :=
  match Dense.validate encoder with
  | ValidationResult.ok =>
      if encoder.isStatic then
        ValidationResult.configurationError "The vocabulary should be learnable"
      else
        ValidationResult.ok
  | e => e

/-- Capability tags under which training hooks are registered. -/
inductive HookCapability where
  | dualVectorListener : HookCapability
  | other (tag : Nat) : HookCapability
deriving DecidableEq

/-- A registered training hook: an identity plus the capability it was
registered under. -/
structure TrainingHook where
  id : Nat
  capability : HookCapability
deriving DecidableEq

/-- Model of the training context as seen by `Dense.score_pairs`: the
ordered list of registered hooks. -/
structure TrainerContext where
  registeredHooks : List TrainingHook

/-- Modelled from the spec: `TrainerContext.hooks(cls)` (class
`TrainerContext` lives in `xpmir/letor/context.py`, which is not part of
the excerpt).  Per §4.6, hooks are "registered by capability type (e.g.,
'all DualVectorListener hooks') and invoked in registration order", so
`hooks` returns the registered hooks of the requested capability in
registration order. -/
def TrainerContext.hooksOf (ctx : TrainerContext) (cap : HookCapability) :
    List TrainingHook :=
  ctx.registeredHooks.filter (fun h => h.capability = cap)

/-- A recorded hook invocation: which hook was called, and the query and
document matrices it received. -/
structure HookCall where
  hook : TrainingHook
  queries : Nat → Nat → ℚ
  documents : Nat → Nat → ℚ

/-- Embeds `foreach` from `xpmir/utils.py` (not in the excerpt): applies a
function to each element in order; here the applications are recorded as a
trace. -/
def foreach {α β : Type} (l : List α) (f : α → β) : List β :=
  l.map f

/-- Embeds `Dense.score_pairs` (dual.py lines 70-79) over query and
document matrices of shape `(n, d)` (functions on indices).  The scores
`(queries.unsqueeze(1) @ documents.unsqueeze(2)).squeeze(-1).squeeze(-1)`
are the row-wise dot products; afterwards, if `info` is not `None`, every
`DualVectorListener` hook of the context is called with
`(info, queries, documents)`; finally the scores are returned.  The result
pairs the returned score vector with the trace of hook invocations made
before the return. -/
def Dense.score_pairs (n d : Nat) (queries documents : Nat → Nat → ℚ)
    (info : Option TrainerContext) : (Nat → ℚ) × List HookCall :=
  let scores := fun i => ∑ j ∈ Finset.range d, queries i j * documents i j
  let calls :=
    match info with
    | some ctx =>
        foreach (ctx.hooksOf HookCapability.dualVectorListener)
          (fun hook => HookCall.mk hook queries documents)
    | none => []
  (scores, calls)

/-! ## `xpmir/evaluation.py` — the run file written by `Evaluate.execute` -/

/-- A retrieved document as returned by `retriever.retrieve`: its
identifier and score. -/
structure ScoredDocument where
  docid : String
  score : ℚ
deriving DecidableEq

/-- One line of the run file, split into its six space-separated fields:
`query_id  Q0  doc_id  rank  score  run_tag`. -/
structure RunLine where
  qid : String
  q0 : String
  docid : String
  rank : Nat
  score : ℚ
  tag : String
deriving DecidableEq

/-- Embeds the run-file loop body of `Evaluate.execute` (evaluation.py
lines 84-86) for one query: for each retrieved document, in retrieval
order, one line `f"{qid} Q0 {sd.docid} {rank+1} {sd.score} run"` where
`rank` enumerates from 0. -/
def Evaluate.runLinesForQuery (qid : String) (docs : List ScoredDocument) :
    List RunLine :=
  docs.enum.map fun p => RunLine.mk qid "Q0" p.2.docid (p.1 + 1) p.2.score "run"

/-- Embeds the full run file written by `Evaluate.execute`: the
concatenation, over the topics in iteration order, of each query's
lines. -/
def Evaluate.runFile (topics : List (String × String))
    (retrieve : String → List ScoredDocument) : List RunLine :=
  topics.flatMap fun t => Evaluate.runLinesForQuery t.1 (retrieve t.2)

/-- Embeds `Sampler.initialize` (base.py lines 27-28):
`self.random = random or np.random.RandomState(random.randint(0, 2**31))`.
A `RandomState` instance is truthy (numpy defines no `__bool__`), so `or`
short-circuits and returns `random` itself; when `random` is `None` the
fallback expression evaluates `random.randint(...)` on `None`, raising
`AttributeError`.  Returns the value stored in `self.random` or the
exception.  (Named `initRandom` in this development.) -/
def Sampler.initRandom (random : Option RandomState) : PyResult RandomState :=
  match random with
  | some r => PyResult.ok r
  | none => PyResult.exn "AttributeError"

/-! ## Theorems -/

/-- C1: in `PairwiseTrainer.train_batch`, if any relevance score returned
by the ranker is NaN or infinite, the process exits with code 1 before the
loss function is ever applied — for every configured loss function the
result is `exited 1`, so no loss is computed for the batch and no further
training step executes. -/
theorem train_batch_aborts_on_nan_or_inf
    (lossfn : (Nat → Nat → ℚ) → ℚ) (batch_size : Nat) (rel_scores : List PyFloat)
    (h : ∃ s ∈ rel_scores, s.isnan = true ∨ s.isinf = true) :
    PairwiseTrainer.train_batch lossfn batch_size rel_scores =
      TrainBatchResult.exited 1 := by
  obtain ⟨s, hs, hcase⟩ := h
  have hcond : (rel_scores.any PyFloat.isnan || rel_scores.any PyFloat.isinf) = true := by
    rcases hcase with hn | hi
    · simp only [Bool.or_eq_true, List.any_eq_true]
      exact Or.inl ⟨s, hs, hn⟩
    · simp only [Bool.or_eq_true, List.any_eq_true]
      exact Or.inr ⟨s, hs, hi⟩
  simp [PairwiseTrainer.train_batch, hcond]

/-- Witness for C1: on the score list `[NaN, 0.5]` (batch size 1) the
trainer exits with code 1, whatever the loss function. -/
theorem train_batch_aborts_on_nan_or_inf_witness :
    (∃ s ∈ [PyFloat.nan, PyFloat.fin (1/2)], s.isnan = true ∨ s.isinf = true) ∧
      PairwiseTrainer.train_batch (fun _ => 0) 1 [PyFloat.nan, PyFloat.fin (1/2)] =
        TrainBatchResult.exited 1 :=
  ⟨⟨PyFloat.nan, by simp, Or.inl rfl⟩,
    train_batch_aborts_on_nan_or_inf (fun _ => 0) 1 [PyFloat.nan, PyFloat.fin (1/2)]
      ⟨PyFloat.nan, by simp, Or.inl rfl⟩⟩

/-- C2: validation of a dual-encoder scorer (`Dense`, and `DotDense` which
additionally re-runs the check after `super().__validate__()`) fails with
the validation-time configuration error exactly when the document encoder
is static/frozen, and succeeds exactly when the encoder is learnable. -/
theorem dense_validation_rejects_static_encoder (encoder : TextEncoder) :
    (Dense.validate encoder =
        ValidationResult.configurationError "The vocabulary should be learnable"
      ↔ encoder.isStatic = true) ∧
    (Dense.validate encoder = ValidationResult.ok ↔ encoder.isStatic = false) ∧
    (DotDense.validate encoder =
        ValidationResult.configurationError "The vocabulary should be learnable"
      ↔ encoder.isStatic = true) ∧
    (DotDense.validate encoder = ValidationResult.ok ↔ encoder.isStatic = false) := by
  cases h : encoder.isStatic <;>
    simp [Dense.validate, DotDense.validate, h]

/-- C3: `pointwise.compute` and `NogueiraCrossEntropyLoss.compute` are
extensionally equal: on every score tensor they return the same value. -/
theorem pointwise_equals_nogueira (n m : Nat) (scores : Nat → Nat → Nat → ℝ) :
    pointwise.compute n m scores = NogueiraCrossEntropyLoss.compute n m scores :=
  rfl

/-- C4: a `Dense.score_pairs` call with a non-`None` training context
invokes exactly the hooks registered under the `DualVectorListener`
capability, once each, in registration order, passing the raw query and
document matrices; the returned scores are the elementwise dot products
`q_i · d_i` and do not depend on the context (so they are unaffected by
the hooks). -/
theorem score_pairs_hooks_and_scores (n d : Nat)
    (queries documents : Nat → Nat → ℚ) (ctx : TrainerContext) :
    (Dense.score_pairs n d queries documents (some ctx)).2 =
      (ctx.hooksOf HookCapability.dualVectorListener).map
        (fun hook => HookCall.mk hook queries documents) ∧
    (∀ i, (Dense.score_pairs n d queries documents (some ctx)).1 i =
      ∑ j ∈ Finset.range d, queries i j * documents i j) ∧
    (∀ info : Option TrainerContext,
      (Dense.score_pairs n d queries documents info).1 =
        (Dense.score_pairs n d queries documents (some ctx)).1) := by
  refine ⟨rfl, fun i => rfl, fun info => ?_⟩
  cases info <;> rfl

/-- C9: `Sampler.initialize` (embedded as `Sampler.initRandom`) raises if
and only if its `random` argument is `None` (the fallback path calls
`random.randint` on `None`); with a non-`None` random state it succeeds
and stores exactly that object. -/
theorem sampler_init_none_iff_raises (random : Option RandomState) :
    ((Sampler.initRandom random).isExn = true ↔ random = none) ∧
    ∀ r : RandomState, Sampler.initRandom (some r) = PyResult.ok r := by
  refine ⟨?_, fun r => rfl⟩
  cases random <;> simp [Sampler.initRandom, PyResult.isExn]

/-- Helper: the `k`-th batch of the generator is the window of
`batch_size` records starting at offset `batch_size * k`. -/
theorem iter_batches_drop_take {R : Type} (b : Nat) :
    ∀ (k : Nat) (it : List R),
      PairwiseTrainer.iter_batches b it k = (it.drop (b * k)).take b
  | 0, it => by
      simp [PairwiseTrainer.iter_batches, nextBatch]
  | k + 1, it => by
      rw [PairwiseTrainer.iter_batches, iter_batches_drop_take b k]
      simp [nextBatch, List.drop_drop, Nat.mul_succ, Nat.add_comm]

/-- Helper: concatenating the first `nb` yielded batches reconstructs the
first `b * nb` records of the underlying iterator. -/
theorem iter_batches_concat {R : Type} (b : Nat) (it : List R) :
    ∀ nb : Nat,
      (List.range nb).flatMap (PairwiseTrainer.iter_batches b it) =
        it.take (b * nb)
  | 0 => by simp
  | nb + 1 => by
      rw [List.range_succ, List.flatMap_append, iter_batches_concat b it nb]
      simp only [List.flatMap_cons, List.flatMap_nil, List.append_nil,
        iter_batches_drop_take]
      rw [← List.take_add, Nat.mul_succ]

/-- C10: the `k`-th batch yielded by `PairwiseTrainer.iter_batches` is the
window of records at offsets `b*k .. b*k + b - 1` of the underlying
iterator (so records are consumed consecutively, none skipped or
duplicated: the first `nb` batches concatenate to the first `b * nb`
records); each batch holds at most `b` records, exactly `b` while the
iterator can still supply them (`length - b*k ≥ b`), and the empty batch
once the iterator is exhausted (`length - b*k = 0`) — the stream being
total in `k`, empty batches are yielded indefinitely. -/
theorem iter_batches_windows {R : Type} (b : Nat) (it : List R) (k nb : Nat) :
    PairwiseTrainer.iter_batches b it k = (it.drop (b * k)).take b ∧
    (PairwiseTrainer.iter_batches b it k).length ≤ b ∧
    (PairwiseTrainer.iter_batches b it k).length = min b (it.length - b * k) ∧
    (List.range nb).flatMap (PairwiseTrainer.iter_batches b it) =
      it.take (b * nb) := by
  refine ⟨iter_batches_drop_take b k it, ?_, ?_, iter_batches_concat b it nb⟩
  · rw [iter_batches_drop_take b k it]
    simp [List.length_take]
  · rw [iter_batches_drop_take b k it]
    simp [List.length_take, List.length_drop]

/-- C6: `HingeLoss.compute` is the mean, over all (row, negative-column)
pairs, of `relu(margin - positive + negative)` where the positive score is
column 0; the margin defaults to 1; and on the single-row matrix
`(positive, negative) = (0.3, 0.9)` with the default margin the loss is
`relu(1.0 - 0.3 + 0.9) = 1.6`. -/
theorem hinge_loss_mean_and_example (l : HingeLoss) (n m : Nat)
    (scores : Nat → Nat → ℚ) :
    l.compute n m scores =
      (∑ p ∈ Finset.range n ×ˢ Finset.range (m - 1),
          relu (l.margin - scores p.1 0 + scores p.1 (p.2 + 1))) /
        (((Finset.range n ×ˢ Finset.range (m - 1)).card : Nat) : ℚ) ∧
    ({} : HingeLoss).margin = 1 ∧
    HingeLoss.compute {} 1 2 (fun _ j => if j = 0 then 3/10 else 9/10) = 8/5 := by
  refine ⟨?_, rfl, ?_⟩
  · rw [Finset.sum_product]
    simp [HingeLoss.compute]
  · simp [HingeLoss.compute, relu]
    norm_num

/-- C7: for a score matrix with at least one row and at least two columns,
the accuracy computed by `PairwiseTrainer.acc` — the fraction of
(positive, negative) comparisons where the positive score strictly exceeds
the negative score — lies in `[0, 1]`. -/
theorem acc_in_unit_interval (n m : Nat) (scores : Nat → Nat → ℚ)
    (hn : 1 ≤ n) (hm : 2 ≤ m) :
    0 ≤ PairwiseTrainer.acc n m scores ∧ PairwiseTrainer.acc n m scores ≤ 1 := by
  have hS0 : (0 : ℚ) ≤
      ∑ i ∈ Finset.range n, ∑ j ∈ Finset.range (m - 1),
        if scores i 0 > scores i (j + 1) then (1 : ℚ) else 0 :=
    Finset.sum_nonneg fun i _ =>
      Finset.sum_nonneg fun j _ => by split <;> norm_num
  have hS1 : (∑ i ∈ Finset.range n, ∑ j ∈ Finset.range (m - 1),
        if scores i 0 > scores i (j + 1) then (1 : ℚ) else 0) ≤
      ((n * (m - 1) : Nat) : ℚ) := by
    calc (∑ i ∈ Finset.range n, ∑ j ∈ Finset.range (m - 1),
            if scores i 0 > scores i (j + 1) then (1 : ℚ) else 0)
        ≤ ∑ _i ∈ Finset.range n, ∑ _j ∈ Finset.range (m - 1), (1 : ℚ) :=
          Finset.sum_le_sum fun i _ =>
            Finset.sum_le_sum fun j _ => by split <;> norm_num
      _ = ((n * (m - 1) : Nat) : ℚ) := by
          simp [Finset.sum_const, Finset.card_range]
  have hcpos : (0 : ℚ) < ((n * (m - 1) : Nat) : ℚ) := by
    have : 0 < n * (m - 1) := Nat.mul_pos (by omega) (by omega)
    exact_mod_cast this
  constructor
  · exact div_nonneg hS0 hcpos.le
  · exact (div_le_one hcpos).mpr hS1

/-- Witness for C7: the all-zero 1 × 2 score matrix has accuracy in
`[0, 1]`. -/
theorem acc_in_unit_interval_witness :
    (1 ≤ 1 ∧ 2 ≤ 2) ∧
      (0 ≤ PairwiseTrainer.acc 1 2 (fun _ _ => 0) ∧
        PairwiseTrainer.acc 1 2 (fun _ _ => 0) ≤ 1) :=
  ⟨⟨le_refl 1, le_refl 2⟩,
    acc_in_unit_interval 1 2 (fun _ _ => 0) (le_refl 1) (le_refl 2)⟩

/-- C8: the run-file block written by `Evaluate.execute` for one query has
one line per retrieved document, in retrieval order, whose fields are the
query id, the literal `Q0`, the document id, the rank `i + 1` of the
`i`-th retrieved document (so the first rank is 1 and ranks increase by
1), the score, and the run tag `run`. -/
theorem run_lines_format (qid : String) (docs : List ScoredDocument)
    (i : Nat) (hi : i < docs.length) :
    (Evaluate.runLinesForQuery qid docs).length = docs.length ∧
    (Evaluate.runLinesForQuery qid docs)[i]? =
      some (RunLine.mk qid "Q0" (docs.get ⟨i, hi⟩).docid (i + 1)
        (docs.get ⟨i, hi⟩).score "run") := by
  constructor
  · simp [Evaluate.runLinesForQuery]
  · simp [Evaluate.runLinesForQuery, List.getElem?_map, List.getElem?_enum,
      List.getElem?_eq_getElem hi]

/-- Witness for C8: a two-document retrieval for query `q1` yields a
two-line block whose second line is `q1 Q0 d2 2 1/2 run`. -/
theorem run_lines_format_witness :
    (Evaluate.runLinesForQuery "q1"
        [ScoredDocument.mk "d1" 1, ScoredDocument.mk "d2" (1/2)]).length = 2 ∧
    (Evaluate.runLinesForQuery "q1"
        [ScoredDocument.mk "d1" 1, ScoredDocument.mk "d2" (1/2)])[1]? =
      some (RunLine.mk "q1" "Q0" "d2" 2 (1/2) "run") :=
  run_lines_format "q1"
    [ScoredDocument.mk "d1" 1, ScoredDocument.mk "d2" (1/2)] 1 (by decide)

/-- C5: `SoftmaxLoss.compute` on an `n × m` score matrix (`n ≥ 1`,
`m ≥ 2`) is the mean over rows of `1 - softmax(row)[0]`; in particular
when every row is `[1, 0]` the result is `1 - softmax([1, 0])[0]`. -/
theorem softmax_loss_mean_and_example (n m : Nat) (scores : Nat → Nat → ℝ)
    (hn : 1 ≤ n) (hm : 2 ≤ m) :
    SoftmaxLoss.compute n m scores =
      (∑ i ∈ Finset.range n, (1 - softmax m (scores i) 0)) / (n : ℝ) ∧
    ∀ cs : Nat → Nat → ℝ, (∀ i < n, cs i 0 = 1 ∧ cs i 1 = 0) →
      SoftmaxLoss.compute n 2 cs =
        1 - softmax 2 (fun j => if j = 0 then 1 else 0) 0 := by
  refine ⟨rfl, fun cs hcs => ?_⟩
  have hrow : ∀ i ∈ Finset.range n,
      1 - softmax 2 (cs i) 0 =
        1 - softmax 2 (fun j => if j = 0 then 1 else 0) 0 := by
    intro i hi
    have h := hcs i (Finset.mem_range.mp hi)
    simp [softmax, Finset.sum_range_succ, Finset.sum_range_one, h.1, h.2]
  have hn0 : (n : ℝ) ≠ 0 := Nat.cast_ne_zero.mpr (by omega)
  rw [SoftmaxLoss.compute, Finset.sum_congr rfl hrow, Finset.sum_const,
    Finset.card_range, nsmul_eq_mul]
  exact mul_div_cancel_left₀ _ hn0

/-- Witness for C5: the 1 × 2 matrix with (only) row `[1, 0]` has softmax
loss `1 - softmax([1, 0])[0]`. -/
theorem softmax_loss_mean_and_example_witness :
    (1 ≤ 1 ∧ 2 ≤ 2) ∧
      SoftmaxLoss.compute 1 2 (fun _ j => if j = 0 then 1 else 0) =
        1 - softmax 2 (fun j => if j = 0 then 1 else 0) 0 :=
  ⟨⟨le_refl 1, le_refl 2⟩,
    (softmax_loss_mean_and_example 1 2 (fun _ j => if j = 0 then 1 else 0)
        (le_refl 1) (le_refl 2)).2
      (fun _ j => if j = 0 then 1 else 0) (fun i _ => ⟨rfl, rfl⟩)⟩

end Xpmir
